import Mathlib

/-
Shallow embedding of the media process lifecycle controller
(src/src/media_context.ts) and of the S3 upload utility
(src/src/utils/S3Uploader.ts) of the meet-teams-bot repository.

Modelling choices:
* The abstract class MediaContext holds two nullable fields, `process`
  (the ChildProcess handle) and `promise` (the completion promise).  A
  supervisor state `SupState` records both as `Option Nat` (a pid stands for
  the handle), plus `pending`, the not-yet-fired terminal-event handler
  registered by `execute` together with the `after` callback it captured
  (exactly one terminal event, 'exit' or 'error', fires per process
  lifetime), plus a fresh-pid counter.
* Every operation returns the new state together with a trace of
  `Act`s in the order the corresponding statements run in the
  source: spawning, attaching / detaching the stdout and stderr data
  listeners, clearing the slot, invoking the `after` callback,
  resolving or rejecting the promise, console output, and one marker
  action at the entry of each controller `play` function recording its
  arguments.
* The `after` callbacks that occur in the source are closed over the
  singleton controllers (`SoundContext.default`, `VideoContext.default`,
  and the anonymous logger in `play_stdin`), so they are represented by
  the first-order tag `Fallback` and dispatched by `runFallback`.
* Environment lookups (`process.env`), `fs.existsSync` and the audio
  sample rate are gathered in an ambient context `Ctx`.
-/

inductive StreamId where
  | stdout
  | stderr
deriving DecidableEq

/-- Tag for the `after` callback passed to `MediaContext.execute`:
`SoundContext.default`, `VideoContext.default`, or the anonymous warning
logger passed by `SoundContext.play_stdin`. -/
inductive Fallback where
  | soundDefault
  | videoDefault
  | stdinLogger
deriving DecidableEq

/-- One observable action of the supervisor, in source order. The three
`...PlayCall` constructors mark the entry of the corresponding controller
method with its arguments. -/
inductive Act where
  | warn (msg : String)
  | logLine (msg : String)
  | logError
  | spawnProc (pid : Nat) (cmd : String) (args : List String)
  | attachListener (sid : StreamId)
  | detachListener (sid : StreamId)
  | clearSlot
  | invokeCallback (fb : Fallback)
  | resolveSig (code : Option Int)
  | rejectSig
  | killProc (pid : Nat)
  | soundPlayCall (pathname : String) (loop : Bool)
  | videoPlayCall (pathname : String) (loop : Bool)
  | stdinPlayCall
deriving DecidableEq

/-- Is this action a process spawn? -/
def Act.isSpawn : Act → Bool
  | Act.spawnProc _ _ _ => true
  | _ => false

/-- Is this action the entry of one of the controller `play` methods? -/
def Act.isPlayCall : Act → Bool
  | Act.soundPlayCall _ _ => true
  | Act.videoPlayCall _ _ => true
  | Act.stdinPlayCall => true
  | _ => false

/-- Is this action the detachment of a stream listener? -/
def Act.isDetach : Act → Bool
  | Act.detachListener _ => true
  | _ => false

/-- Is this action the detachment of the stdout listener? -/
def Act.isDetachOut : Act → Bool
  | Act.detachListener StreamId.stdout => true
  | _ => false

/-- Is this action the detachment of the stderr listener? -/
def Act.isDetachErr : Act → Bool
  | Act.detachListener StreamId.stderr => true
  | _ => false

/-- Is this action an invocation of the exit callback? -/
def Act.isInvoke : Act → Bool
  | Act.invokeCallback _ => true
  | _ => false

/-- Is this action the entry of SoundContext.play with these arguments? -/
def Act.isSoundPlayOf (p : String) (l : Bool) : Act → Bool
  | Act.soundPlayCall q m => p == q && l == m
  | _ => false

/-- Is this action the entry of VideoContext.play with these arguments? -/
def Act.isVideoPlayOf (p : String) (l : Bool) : Act → Bool
  | Act.videoPlayCall q m => p == q && l == m
  | _ => false

/-- State of one MediaContext instance: the nullable `process` and
`promise` fields of the class, the registered-but-unfired terminal-event
handler with its captured callback, and a counter supplying fresh pids. -/
structure SupState where
  process : Option Nat
  promise : Option Nat
  pending : Option Fallback
  nextPid : Nat
deriving DecidableEq

/-- The constructor sets both nullable fields to null. -/
def SupState.init : SupState :=
  { process := none, promise := none, pending := none, nextPid := 0 }

/-- Environment configuration read at module load. -/
structure MediaEnv where
  virtualMicEnv : Option String
  videoDeviceEnv : Option String

/-- MICRO_DEVICE (media_context.ts line 7). -/
def MediaEnv.MICRO_DEVICE (e : MediaEnv) : String :=
  "pulse:" ++ e.virtualMicEnv.getD ("virtual_mic")

/-- CAMERA_DEVICE (media_context.ts line 8). -/
def MediaEnv.CAMERA_DEVICE (e : MediaEnv) : String :=
  e.videoDeviceEnv.getD ("/dev/video10")

/-- Ambient context: environment, `fs.existsSync`, and the sample rate
stored in the SoundContext constructor. -/
structure Ctx where
  env : MediaEnv
  fsExistsSync : String → Bool
  sampleRate : Nat

/-- Rendering of a nullable exit code inside a template string. -/
def codeStr : Option Int → String
  | some n => toString n
  | none => "null"

/-- MediaContext.execute (media_context.ts lines 30-80): if a process is
already active, warn and return null; otherwise spawn ffmpeg with the
given arguments, attach the stdout and stderr data listeners, create the
completion promise (registering the exit and error handlers, which
capture `after`), and return the process handle.  The returned
`Option Nat` is the nullable ChildProcess return value. -/
def MediaContext.execute (s : SupState) (args : List String) (after : Fallback) :
    SupState × List Act × Option Nat :=
  match s.process with
  | some _ => (s, [Act.warn ("Already on execution")], none)
  | none =>
    let pid := s.nextPid
    ({ process := some pid, promise := some pid, pending := some after,
       nextPid := pid + 1 },
     [Act.spawnProc pid ("ffmpeg") args,
      Act.attachListener StreamId.stdout,
      Act.attachListener StreamId.stderr],
     some pid)

/-- SoundContext.play argument list (media_context.ts lines 124-141). -/
def SoundContext.playArgs (env : MediaEnv) (pathname : String) (loop : Bool) :
    List String :=
  (if loop then ["-stream_loop", "-1"] else []) ++
    ["-re", "-i", pathname, "-f", "alsa", "-acodec", "pcm_s16le",
     env.MICRO_DEVICE]

/-- SoundContext.play (media_context.ts lines 124-142): build the ffmpeg
argument list and call `execute` with `this.default` as the callback. -/
def SoundContext.play (ctx : Ctx) (s : SupState) (pathname : String) (loop : Bool) :
    SupState × List Act :=
  let r := MediaContext.execute s (SoundContext.playArgs ctx.env pathname loop)
    Fallback.soundDefault
  (r.1, Act.soundPlayCall pathname loop :: r.2.1)

/-- VideoContext.play argument list (media_context.ts lines 200-226). -/
def VideoContext.playArgs (env : MediaEnv) (pathname : String) (loop : Bool) :
    List String :=
  (if loop then ["-stream_loop", "-1"] else []) ++
    ["-re", "-i", pathname, "-f", "v4l2", "-vcodec", "mjpeg", "-q:v", "5",
     "-threads", "0", env.CAMERA_DEVICE]

/-- VideoContext.play (media_context.ts lines 200-227): if the file does
not exist, log and return without touching any state; otherwise build
the argument list and call `execute` with `this.default` as callback. -/
def VideoContext.play (ctx : Ctx) (s : SupState) (pathname : String) (loop : Bool) :
    SupState × List Act :=
  if ctx.fsExistsSync pathname then
    let r := MediaContext.execute s (VideoContext.playArgs ctx.env pathname loop)
      Fallback.videoDefault
    (r.1, Act.videoPlayCall pathname loop :: r.2.1)
  else
    (s, [Act.videoPlayCall pathname loop,
         Act.logLine ("Video file not found: " ++ pathname)])

/-- SoundContext.play_stdin argument list (media_context.ts 147-162). -/
def SoundContext.stdinArgs (env : MediaEnv) (sampleRate : Nat) : List String :=
  ["-f", "f32le", "-ar", toString sampleRate, "-ac", "1", "-i", "-",
   "-f", "alsa", "-acodec", "pcm_s16le", env.MICRO_DEVICE]

/-- SoundContext.play_stdin (media_context.ts lines 145-166): calls
`execute` and returns `.stdin` of its result.  When `execute` returns
null (a process is already active), the member access `null.stdin`
throws a TypeError in JavaScript; that throw is modelled by
`Except.error`.  On success the stdin writable of the spawned pid is
returned as `Except.ok pid`. -/
def SoundContext.play_stdin (ctx : Ctx) (s : SupState) :
    SupState × List Act × Except String Nat :=
  let r := MediaContext.execute s
    (SoundContext.stdinArgs ctx.env ctx.sampleRate) Fallback.stdinLogger
  match r.2.2 with
  | none =>
    (r.1, Act.stdinPlayCall :: r.2.1,
     Except.error ("TypeError: Cannot read properties of null (reading stdin)"))
  | some pid => (r.1, Act.stdinPlayCall :: r.2.1, Except.ok pid)

/-- SoundContext.default (media_context.ts lines 120-122): play the
bundled silence asset without looping on the singleton instance. -/
def SoundContext.defaultPlay (ctx : Ctx) (s : SupState) : SupState × List Act :=
  SoundContext.play ctx s ("../silence.opus") false

/-- VideoContext.default (media_context.ts lines 196-198): play the
bundled branding asset with looping on the singleton instance. -/
def VideoContext.defaultPlay (ctx : Ctx) (s : SupState) : SupState × List Act :=
  VideoContext.play ctx s ("../branding.mjpeg") true

/-- Dispatch of the captured `after` callback at its invocation site in
the exit handler. -/
def runFallback (ctx : Ctx) (fb : Fallback) (s : SupState) : SupState × List Act :=
  match fb with
  | Fallback.soundDefault => SoundContext.defaultPlay ctx s
  | Fallback.videoDefault => VideoContext.defaultPlay ctx s
  | Fallback.stdinLogger => (s, [Act.warn ("[play_stdin] Sequence ended")])

/-- Terminal outcome of a supervised process: the 'exit' event with a
nullable code, or the 'error' event. -/
inductive Outcome where
  | exited (code : Option Int)
  | errored
deriving DecidableEq

/-- Delivery of the single terminal event of the registered process,
running the handler installed by `execute` (media_context.ts lines
59-78).  'exit': log, detach both listeners, and when the code compares
equal to 0 clear the slot and invoke the captured callback, then resolve
the promise with the code.  'error': log, detach both listeners, reject
the promise.  When no handler is pending (no process spawned, or its
terminal event already fired) nothing happens. -/
def deliverEvent (ctx : Ctx) (o : Outcome) (s : SupState) : SupState × List Act :=
  match s.pending with
  | none => (s, [])
  | some fb =>
    let s0 : SupState := { s with pending := none }
    match o with
    | Outcome.errored =>
      (s0, [Act.logError,
            Act.detachListener StreamId.stdout,
            Act.detachListener StreamId.stderr,
            Act.rejectSig])
    | Outcome.exited code =>
      let pre := [Act.logLine ("process exited with code " ++ codeStr code),
                  Act.detachListener StreamId.stdout,
                  Act.detachListener StreamId.stderr]
      if code = some 0 then
        let s1 : SupState := { s0 with process := none }
        let r := runFallback ctx fb s1
        (r.1, pre ++ [Act.clearSlot, Act.invokeCallback fb] ++ r.2 ++
              [Act.resolveSig code])
      else
        (s0, pre ++ [Act.resolveSig code])

/-- MediaContext.stop_process (media_context.ts lines 82-102): if no
process is active, warn and return; otherwise send SIGTERM and await the
promise.  `o` is the terminal event that settles the awaited promise; if
the handler already fired earlier the await resumes at once and `o` is
irrelevant (`deliverEvent` is the identity then).  The `.finally` block
sets both nullable fields to null regardless of outcome. -/
def MediaContext.stop_process (ctx : Ctx) (s : SupState) (o : Outcome) :
    SupState × List Act :=
  match s.process with
  | none => (s, [Act.warn ("Already stoped")])
  | some pid =>
    let r := deliverEvent ctx o s
    ({ r.1 with process := none, promise := none },
     Act.killProc pid :: Act.logLine ("Signal sended to process") ::
       r.2 ++ [Act.logLine ("stop_process settled")])

/-- One caller-visible command on the supervisor: the three play entry
points, a spontaneous terminal event of the running process, or a stop. -/
inductive Cmd where
  | soundPlayCmd (pathname : String) (loop : Bool)
  | videoPlayCmd (pathname : String) (loop : Bool)
  | stdinPlayCmd
  | eventCmd (o : Outcome)
  | stopCmd (o : Outcome)
deriving DecidableEq

/-- Is this command one of the three play entry points? -/
def Cmd.isPlay : Cmd → Bool
  | Cmd.soundPlayCmd _ _ => true
  | Cmd.videoPlayCmd _ _ => true
  | Cmd.stdinPlayCmd => true
  | _ => false

/-- State transition of one command. -/
def stepCmd (ctx : Ctx) (s : SupState) : Cmd → SupState
  | Cmd.soundPlayCmd p l => (SoundContext.play ctx s p l).1
  | Cmd.videoPlayCmd p l => (VideoContext.play ctx s p l).1
  | Cmd.stdinPlayCmd => (SoundContext.play_stdin ctx s).1
  | Cmd.eventCmd o => (deliverEvent ctx o s).1
  | Cmd.stopCmd o => (MediaContext.stop_process ctx s o).1

/-- Run a sequence of commands from a state. -/
def runCmds (ctx : Ctx) (s : SupState) (cmds : List Cmd) : SupState :=
  cmds.foldl (stepCmd ctx) s

/-- The one-directional part of the spec invariant that the code keeps:
whenever the process slot is occupied the promise field is set. -/
def SigInv (s : SupState) : Prop :=
  s.process.isSome = true → s.promise.isSome = true

/-- A concrete ambient context: default environment, empty filesystem,
48 kHz sample rate. -/
def ctx0 : Ctx :=
  { env := { virtualMicEnv := none, videoDeviceEnv := none },
    fsExistsSync := fun _ => false,
    sampleRate := 48000 }

/-- A concrete context whose filesystem contains every path. -/
def ctxAllFiles : Ctx :=
  { env := { virtualMicEnv := none, videoDeviceEnv := none },
    fsExistsSync := fun _ => true,
    sampleRate := 48000 }

/-- The reachable state after one `play_stdin` from the initial state:
pid 0 running, promise set, stdin-logger handler pending. -/
def supBusy : SupState :=
  { process := some 0, promise := some 0, pending := some Fallback.stdinLogger,
    nextPid := 1 }

/-
Embedding of src/src/utils/S3Uploader.ts.  The relevant globals
(`GLOBAL.isServerless()`, `GLOBAL.get().remote`, `process.env.S3_ARGS`,
`S3_ENDPOINT`) are gathered in `S3Config`; `remoteS3Args` is `[]` when
`remote` is null or `remote.s3_args` is empty (the guard in getS3Args
treats those two alike), and `awsS3Public = none` covers both a null
`remote` and an unset `remote.aws_s3_public`.  The spawned `aws` process
is replaced by the list of argument vectors passed to `spawn`, and its
nondeterministic result by an explicit `AwsOutcome` parameter. -/

structure S3Config where
  serverless : Bool
  remoteS3Args : List String
  envS3Args : Option String
  awsS3Public : Option Bool
  endpoint : String
deriving DecidableEq

/-- Outcome of the spawned aws CLI process: the 'close' event with an
exit code and the accumulated stdout and stderr text, or the 'error'
event (spawn failure). -/
inductive AwsOutcome where
  | closed (code : Int) (out errOut : String)
  | spawnFailed (msg : String)
deriving DecidableEq

namespace S3Uploader

/-- S3Uploader.getS3Args (S3Uploader.ts lines 34-52): precedence is the
non-empty argument, then the non-empty remote configuration, then the
S3_ARGS environment variable split on spaces, then empty. -/
def getS3Args (cfg : S3Config) (s3Args : Option (List String)) : List String :=
  if 0 < (s3Args.getD []).length then s3Args.getD []
  else if 0 < cfg.remoteS3Args.length then cfg.remoteS3Args
  else
    match cfg.envS3Args with
    | some v => v.splitOn (" ")
    | none => []

/-- S3Uploader.uploadFile (S3Uploader.ts lines 54-134): in serverless
mode resolve to the empty string at once; otherwise check the file,
build the `aws s3 cp` argument vector (appending `--acl public-read`
unless `remote.aws_s3_public` is exactly false), spawn it, and resolve
with the public URL on exit code 0 or reject otherwise.  The second
component collects the argument vectors handed to `spawn`. -/
def uploadFile (cfg : S3Config) (fileExists : Bool)
    (filePath bucketName s3Path : String) (s3Args : Option (List String))
    (outcome : AwsOutcome) : Except String String × List (List String) :=
  if cfg.serverless then (Except.ok (""), [])
  else if !fileExists then
    (Except.error ("File does not exist: " ++ filePath), [])
  else
    let s3FullPath := "s3://" ++ bucketName ++ "/" ++ s3Path
    let baseArgs := getS3Args cfg s3Args ++ ["s3", "cp", filePath, s3FullPath]
    let fullArgs :=
      if cfg.awsS3Public ≠ some false then baseArgs ++ ["--acl", "public-read"]
      else baseArgs
    match outcome with
    | AwsOutcome.spawnFailed m =>
      (Except.error ("AWS CLI process failed to start: " ++ m), [fullArgs])
    | AwsOutcome.closed code out errOut =>
      if code = 0 then
        (Except.ok ("https://" ++ bucketName ++ "." ++ cfg.endpoint ++ "/" ++
           s3Path), [fullArgs])
      else
        (Except.error ("S3 upload failed (" ++ toString code ++ "): " ++
           (if errOut = "" then out else errOut)), [fullArgs])

/-- S3Uploader.uploadDirectory (S3Uploader.ts lines 159-237): same shape
as uploadFile but `aws s3 sync --delete`, without the existence check. -/
def uploadDirectory (cfg : S3Config) (localDir bucketName s3Path : String)
    (s3Args : Option (List String)) (outcome : AwsOutcome) :
    Except String String × List (List String) :=
  if cfg.serverless then (Except.ok (""), [])
  else
    let s3FullPath := "s3://" ++ bucketName ++ "/" ++ s3Path
    let baseArgs := getS3Args cfg s3Args ++
      ["s3", "sync", localDir, s3FullPath, "--delete"]
    let fullArgs :=
      if cfg.awsS3Public ≠ some false then baseArgs ++ ["--acl", "public-read"]
      else baseArgs
    match outcome with
    | AwsOutcome.spawnFailed m =>
      (Except.error ("AWS CLI process failed to start: " ++ m), [fullArgs])
    | AwsOutcome.closed code out errOut =>
      if code = 0 then
        (Except.ok ("https://" ++ bucketName ++ "." ++ cfg.endpoint ++ "/" ++
           s3Path), [fullArgs])
      else
        (Except.error ("S3 sync failed (" ++ toString code ++ "): " ++
           (if errOut = "" then out else errOut)), [fullArgs])

end S3Uploader

/-- A concrete serverless S3 configuration. -/
def cfgServerless : S3Config :=
  { serverless := true, remoteS3Args := [], envS3Args := none,
    awsS3Public := none, endpoint := "s3.fr-par.scw.cloud" }

/-
Helper lemmas shared by the claim theorems.
-/

/-- SigInv holds vacuously when the process slot is empty. -/
lemma sigInv_of_none {s : SupState} (h : s.process = none) : SigInv s := by
  intro hs
  rw [h] at hs
  simp at hs

/-- execute preserves the invariant. -/
lemma sigInv_execute {s : SupState} (args : List String) (fb : Fallback)
    (h : SigInv s) : SigInv (MediaContext.execute s args fb).1 := by
  obtain ⟨proc, prom, pend, np⟩ := s
  cases proc with
  | some p => exact h
  | none => intro _; rfl

/-- VideoContext.play preserves the invariant. -/
lemma sigInv_videoPlay (ctx : Ctx) {s : SupState} (p : String) (l : Bool)
    (h : SigInv s) : SigInv (VideoContext.play ctx s p l).1 := by
  unfold VideoContext.play
  split
  · exact sigInv_execute _ _ h
  · exact h

/-- The state component of play_stdin is the state component of the
underlying execute. -/
lemma play_stdin_fst (ctx : Ctx) (s : SupState) :
    (SoundContext.play_stdin ctx s).1 =
      (MediaContext.execute s (SoundContext.stdinArgs ctx.env ctx.sampleRate)
        Fallback.stdinLogger).1 := by
  obtain ⟨proc, prom, pend, np⟩ := s
  cases proc with
  | some p => rfl
  | none => rfl

/-- The callback dispatch preserves the invariant. -/
lemma sigInv_runFallback (ctx : Ctx) (fb : Fallback) {s : SupState}
    (h : SigInv s) : SigInv (runFallback ctx fb s).1 := by
  cases fb with
  | soundDefault => exact sigInv_execute _ _ h
  | videoDefault => exact sigInv_videoPlay ctx _ _ h
  | stdinLogger => exact h

/-- Terminal-event delivery preserves the invariant. -/
lemma sigInv_deliverEvent (ctx : Ctx) (o : Outcome) {s : SupState}
    (h : SigInv s) : SigInv (deliverEvent ctx o s).1 := by
  obtain ⟨proc, prom, pend, np⟩ := s
  cases pend with
  | none => exact h
  | some fb =>
    cases o with
    | errored => exact h
    | exited code =>
      show SigInv (if code = some 0 then _ else _ : SupState × List Act).1
      split
      · exact sigInv_runFallback ctx fb (sigInv_of_none rfl)
      · exact h

/-- Every command preserves the invariant. -/
lemma sigInv_stepCmd (ctx : Ctx) {s : SupState} (c : Cmd) (h : SigInv s) :
    SigInv (stepCmd ctx s c) := by
  cases c with
  | soundPlayCmd p l => exact sigInv_execute _ _ h
  | videoPlayCmd p l => exact sigInv_videoPlay ctx p l h
  | stdinPlayCmd =>
    show SigInv (SoundContext.play_stdin ctx s).1
    rw [play_stdin_fst]
    exact sigInv_execute _ _ h
  | eventCmd o => exact sigInv_deliverEvent ctx o h
  | stopCmd o =>
    show SigInv (MediaContext.stop_process ctx s o).1
    obtain ⟨proc, prom, pend, np⟩ := s
    cases proc with
    | none => exact h
    | some p => exact sigInv_of_none rfl

/-- The invariant holds along any run. -/
lemma sigInv_runCmds (ctx : Ctx) {s : SupState} (cmds : List Cmd)
    (h : SigInv s) : SigInv (runCmds ctx s cmds) := by
  induction cmds generalizing s with
  | nil => exact h
  | cons c cs ih => exact ih (sigInv_stepCmd ctx c h)

/-- The trace of execute contains no promise resolution. -/
lemma resolveSig_not_mem_execute (s : SupState) (args : List String)
    (fb : Fallback) (c : Option Int) :
    Act.resolveSig c ∉ (MediaContext.execute s args fb).2.1 := by
  obtain ⟨proc, prom, pend, np⟩ := s
  cases proc <;> simp [MediaContext.execute]

/-- The trace of the exit callback contains no promise resolution. -/
lemma resolveSig_not_mem_runFallback (ctx : Ctx) (fb : Fallback) (s : SupState)
    (c : Option Int) : Act.resolveSig c ∉ (runFallback ctx fb s).2 := by
  cases fb with
  | soundDefault =>
    show Act.resolveSig c ∉
      Act.soundPlayCall ("../silence.opus") false :: _
    simp only [List.mem_cons, not_or]
    exact ⟨by simp, resolveSig_not_mem_execute _ _ _ _⟩
  | videoDefault =>
    show Act.resolveSig c ∉ (VideoContext.play ctx s ("../branding.mjpeg") true).2
    unfold VideoContext.play
    split
    · simp only [List.mem_cons, not_or]
      exact ⟨by simp, resolveSig_not_mem_execute _ _ _ _⟩
    · simp
  | stdinLogger => simp [runFallback]

/-- The trace of execute contains no stdout-listener detachment. -/
lemma countP_detachOut_execute (s : SupState) (args : List String)
    (fb : Fallback) :
    (MediaContext.execute s args fb).2.1.countP Act.isDetachOut = 0 := by
  obtain ⟨proc, prom, pend, np⟩ := s
  cases proc <;> rfl

/-- The trace of execute contains no stderr-listener detachment. -/
lemma countP_detachErr_execute (s : SupState) (args : List String)
    (fb : Fallback) :
    (MediaContext.execute s args fb).2.1.countP Act.isDetachErr = 0 := by
  obtain ⟨proc, prom, pend, np⟩ := s
  cases proc <;> rfl

/-- The trace of the exit callback contains no stdout detachment. -/
lemma countP_detachOut_runFallback (ctx : Ctx) (fb : Fallback) (s : SupState) :
    (runFallback ctx fb s).2.countP Act.isDetachOut = 0 := by
  cases fb with
  | soundDefault =>
    show (Act.soundPlayCall ("../silence.opus") false :: _).countP _ = 0
    rw [List.countP_cons]
    simp [countP_detachOut_execute, Act.isDetachOut]
  | videoDefault =>
    show (VideoContext.play ctx s ("../branding.mjpeg") true).2.countP _ = 0
    unfold VideoContext.play
    split
    · rw [List.countP_cons]
      simp [countP_detachOut_execute, Act.isDetachOut]
    · rfl
  | stdinLogger => rfl

/-- The trace of the exit callback contains no stderr detachment. -/
lemma countP_detachErr_runFallback (ctx : Ctx) (fb : Fallback) (s : SupState) :
    (runFallback ctx fb s).2.countP Act.isDetachErr = 0 := by
  cases fb with
  | soundDefault =>
    show (Act.soundPlayCall ("../silence.opus") false :: _).countP _ = 0
    rw [List.countP_cons]
    simp [countP_detachErr_execute, Act.isDetachErr]
  | videoDefault =>
    show (VideoContext.play ctx s ("../branding.mjpeg") true).2.countP _ = 0
    unfold VideoContext.play
    split
    · rw [List.countP_cons]
      simp [countP_detachErr_execute, Act.isDetachErr]
    · rfl
  | stdinLogger => rfl

/-- C1 counterexample: after a play_stdin whose process exits with code
0, the active-process slot is empty while the completion-signal field is
still set, so slot and signal are not cleared together at this terminal
transition and the stated equivalence fails. -/
theorem c1_counterexample :
    (runCmds ctx0 SupState.init
      [Cmd.stdinPlayCmd, Cmd.eventCmd (Outcome.exited (some 0))]).process
      = none
    ∧ (runCmds ctx0 SupState.init
      [Cmd.stdinPlayCmd, Cmd.eventCmd (Outcome.exited (some 0))]).promise
      = some 0 :=
  ⟨rfl, rfl⟩

/-- C1 amended: in every reachable supervisor state the completion
signal is present whenever the active-process slot is; the two are set
together when execute spawns, and cleared together by stop_process when
a process is active; but on a success exit only the slot is cleared and
the signal remains set. -/
theorem c1_theorem (ctx : Ctx) (cmds : List Cmd) (s t : SupState)
    (o : Outcome) (args : List String) (fb : Fallback)
    (hs : s.process = none) (ht : t.process.isSome = true) :
    SigInv (runCmds ctx SupState.init cmds)
    ∧ (MediaContext.execute s args fb).1.process.isSome = true
    ∧ (MediaContext.execute s args fb).1.promise.isSome = true
    ∧ (MediaContext.stop_process ctx t o).1.process = none
    ∧ (MediaContext.stop_process ctx t o).1.promise = none := by
  obtain ⟨proc, prom, pend, np⟩ := s
  obtain ⟨proct, promt, pendt, npt⟩ := t
  dsimp only at hs
  subst hs
  cases proct with
  | none => simp at ht
  | some p =>
    exact ⟨sigInv_runCmds ctx cmds (sigInv_of_none rfl), rfl, rfl, rfl, rfl⟩

/-- C1 witness: the amended statement applied at a concrete idle state,
a concrete busy state, and a one-command run. -/
theorem c1_witness :
    SupState.init.process = none ∧ supBusy.process.isSome = true
    ∧ (SigInv (runCmds ctx0 SupState.init [Cmd.stdinPlayCmd])
       ∧ (MediaContext.execute SupState.init ["-re"]
            Fallback.stdinLogger).1.process.isSome = true
       ∧ (MediaContext.execute SupState.init ["-re"]
            Fallback.stdinLogger).1.promise.isSome = true
       ∧ (MediaContext.stop_process ctx0 supBusy
            (Outcome.exited (some 0))).1.process = none
       ∧ (MediaContext.stop_process ctx0 supBusy
            (Outcome.exited (some 0))).1.promise = none) :=
  ⟨rfl, rfl,
   c1_theorem ctx0 [Cmd.stdinPlayCmd] SupState.init supBusy
     (Outcome.exited (some 0)) ["-re"] Fallback.stdinLogger rfl rfl⟩

/-- C2: on the 'exit' path, for every exit code, both stream listeners
are detached before the completion signal is resolved; and on the
success code the slot-clear and the callback invocation also precede the
resolution, the callback running on a state whose slot is empty. -/
theorem c2_theorem (ctx : Ctx) (s : SupState) (fb : Fallback)
    (code : Option Int) (h : s.pending = some fb) :
    (∃ pre, (deliverEvent ctx (Outcome.exited code) s).2
        = pre ++ [Act.resolveSig code]
      ∧ Act.detachListener StreamId.stdout ∈ pre
      ∧ Act.detachListener StreamId.stderr ∈ pre
      ∧ Act.resolveSig code ∉ pre)
    ∧ (code = some 0 →
        deliverEvent ctx (Outcome.exited code) s =
          ((runFallback ctx fb { s with pending := none, process := none }).1,
           [Act.logLine ("process exited with code " ++ codeStr code),
            Act.detachListener StreamId.stdout,
            Act.detachListener StreamId.stderr,
            Act.clearSlot, Act.invokeCallback fb]
           ++ (runFallback ctx fb { s with pending := none, process := none }).2
           ++ [Act.resolveSig code])
        ∧ ({ s with pending := none, process := none } : SupState).process
            = none) := by
  obtain ⟨proc, prom, pend, np⟩ := s
  dsimp only at h
  subst h
  by_cases hc : code = some 0
  · subst hc
    refine ⟨⟨[Act.logLine ("process exited with code " ++ codeStr (some 0)),
        Act.detachListener StreamId.stdout,
        Act.detachListener StreamId.stderr,
        Act.clearSlot, Act.invokeCallback fb]
        ++ (runFallback ctx fb ⟨none, prom, none, np⟩).2, rfl, ?_, ?_, ?_⟩,
      fun _ => ⟨rfl, rfl⟩⟩
    · simp
    · simp
    · intro hmem
      rcases List.mem_append.mp hmem with h1 | h2
      · simp at h1
      · exact resolveSig_not_mem_runFallback ctx fb _ _ h2
  · refine ⟨⟨[Act.logLine ("process exited with code " ++ codeStr code),
        Act.detachListener StreamId.stdout,
        Act.detachListener StreamId.stderr], ?_, ?_, ?_, ?_⟩,
      fun h0 => absurd h0 hc⟩
    · show (deliverEvent ctx (Outcome.exited code) ⟨proc, prom, some fb, np⟩).2
        = _
      simp [deliverEvent, hc]
    · simp
    · simp
    · simp

/-- C2 witness: the ordering statement at the concrete busy state, for
the success code. -/
theorem c2_witness :
    supBusy.pending = some Fallback.stdinLogger
    ∧ ((∃ pre, (deliverEvent ctx0 (Outcome.exited (some 0)) supBusy).2
          = pre ++ [Act.resolveSig (some 0)]
        ∧ Act.detachListener StreamId.stdout ∈ pre
        ∧ Act.detachListener StreamId.stderr ∈ pre
        ∧ Act.resolveSig (some 0) ∉ pre)
      ∧ ((some 0 : Option Int) = some 0 →
          deliverEvent ctx0 (Outcome.exited (some 0)) supBusy =
            ((runFallback ctx0 Fallback.stdinLogger
                { supBusy with pending := none, process := none }).1,
             [Act.logLine ("process exited with code " ++ codeStr (some 0)),
              Act.detachListener StreamId.stdout,
              Act.detachListener StreamId.stderr,
              Act.clearSlot, Act.invokeCallback Fallback.stdinLogger]
             ++ (runFallback ctx0 Fallback.stdinLogger
                  { supBusy with pending := none, process := none }).2
             ++ [Act.resolveSig (some 0)])
          ∧ ({ supBusy with pending := none, process := none }
              : SupState).process = none)) :=
  ⟨rfl, c2_theorem ctx0 supBusy Fallback.stdinLogger (some 0) rfl⟩

/-- A play command applied while a process is active leaves the state
unchanged. -/
lemma stepCmd_busy (ctx : Ctx) {s : SupState} {pid : Nat}
    (h : s.process = some pid) {c : Cmd} (hc : Cmd.isPlay c = true) :
    stepCmd ctx s c = s := by
  obtain ⟨proc, prom, pend, np⟩ := s
  dsimp only at h
  subst h
  cases c with
  | soundPlayCmd p l => rfl
  | videoPlayCmd p l =>
    show (VideoContext.play ctx _ p l).1 = _
    unfold VideoContext.play
    split <;> rfl
  | stdinPlayCmd => rfl
  | eventCmd o => simp [Cmd.isPlay] at hc
  | stopCmd o => simp [Cmd.isPlay] at hc

/-- A sequence of play commands on a busy supervisor is a no-op. -/
lemma runCmds_busy (ctx : Ctx) {s : SupState} {pid : Nat}
    (h : s.process = some pid) (cmds : List Cmd)
    (hc : cmds.all Cmd.isPlay = true) : runCmds ctx s cmds = s := by
  induction cmds with
  | nil => rfl
  | cons c cs ih =>
    rw [List.all_cons, Bool.and_eq_true] at hc
    show runCmds ctx (stepCmd ctx s c) cs = s
    rw [stepCmd_busy ctx h hc.1]
    exact ih hc.2

/-- C3: execute on a busy supervisor warns and returns the null no-op
indicator, leaving the state untouched; every play entry point is a
state-preserving no-op that spawns nothing; and a whole sequence of play
commands on a busy supervisor leaves the state unchanged. -/
theorem c3_theorem (ctx : Ctx) (s : SupState) (args : List String)
    (fb : Fallback) (pid : Nat) (p q : String) (l m : Bool)
    (cmds : List Cmd) (h : s.process = some pid)
    (hc : cmds.all Cmd.isPlay = true) :
    MediaContext.execute s args fb
      = (s, [Act.warn ("Already on execution")], none)
    ∧ SoundContext.play ctx s p l
      = (s, [Act.soundPlayCall p l, Act.warn ("Already on execution")])
    ∧ (VideoContext.play ctx s q m).1 = s
    ∧ (VideoContext.play ctx s q m).2.countP Act.isSpawn = 0
    ∧ (SoundContext.play_stdin ctx s).1 = s
    ∧ runCmds ctx s cmds = s := by
  have hrun := runCmds_busy ctx h cmds hc
  obtain ⟨proc, prom, pend, np⟩ := s
  dsimp only at h
  subst h
  refine ⟨rfl, rfl, ?_, ?_, rfl, hrun⟩
  · show (VideoContext.play ctx _ q m).1 = _
    unfold VideoContext.play
    split <;> rfl
  · show (VideoContext.play ctx _ q m).2.countP Act.isSpawn = 0
    unfold VideoContext.play
    split <;> rfl

/-- C3 witness: the no-op statement at the concrete busy state, with a
two-command play sequence. -/
theorem c3_witness :
    supBusy.process = some 0
    ∧ ([Cmd.soundPlayCmd ("x.mp3") false,
        Cmd.videoPlayCmd ("y.mp4") true]).all Cmd.isPlay = true
    ∧ (MediaContext.execute supBusy ["-re"] Fallback.soundDefault
        = (supBusy, [Act.warn ("Already on execution")], none)
      ∧ SoundContext.play ctx0 supBusy ("a.mp3") false
        = (supBusy, [Act.soundPlayCall ("a.mp3") false,
            Act.warn ("Already on execution")])
      ∧ (VideoContext.play ctx0 supBusy ("b.mp4") true).1 = supBusy
      ∧ (VideoContext.play ctx0 supBusy ("b.mp4") true).2.countP
          Act.isSpawn = 0
      ∧ (SoundContext.play_stdin ctx0 supBusy).1 = supBusy
      ∧ runCmds ctx0 supBusy
          [Cmd.soundPlayCmd ("x.mp3") false,
           Cmd.videoPlayCmd ("y.mp4") true] = supBusy) :=
  ⟨rfl, rfl,
   c3_theorem ctx0 supBusy ["-re"] Fallback.soundDefault 0 ("a.mp3")
     ("b.mp4") false true
     [Cmd.soundPlayCmd ("x.mp3") false, Cmd.videoPlayCmd ("y.mp4") true]
     rfl rfl⟩

/-- C4 counterexample: play_stdin, success exit, then stop_process; the
stop call resolves on the idle branch and afterwards the completion
signal is still set, refuting that both fields are absent after every
stop_process. -/
theorem c4_counterexample :
    (runCmds ctx0 SupState.init
      [Cmd.stdinPlayCmd, Cmd.eventCmd (Outcome.exited (some 0)),
       Cmd.stopCmd (Outcome.exited (some 0))]).process = none
    ∧ (runCmds ctx0 SupState.init
      [Cmd.stdinPlayCmd, Cmd.eventCmd (Outcome.exited (some 0)),
       Cmd.stopCmd (Outcome.exited (some 0))]).promise = some 0 :=
  ⟨rfl, rfl⟩

/-- C4 amended: after any stop_process the active-process slot is empty
and a subsequent execute is legal and spawns; the completion signal is
also cleared whenever a process was active at the call, but a stop
issued on an idle supervisor does not clear a completion signal left
over from an earlier success exit. -/
theorem c4_theorem (ctx : Ctx) (s : SupState) (o : Outcome)
    (args : List String) (fb : Fallback) :
    (MediaContext.stop_process ctx s o).1.process = none
    ∧ (s.process.isSome = true →
        (MediaContext.stop_process ctx s o).1.promise = none)
    ∧ (MediaContext.execute
        (MediaContext.stop_process ctx s o).1 args fb).1.process
        = some (MediaContext.stop_process ctx s o).1.nextPid
    ∧ (MediaContext.execute
        (MediaContext.stop_process ctx s o).1 args fb).2.2
        = some (MediaContext.stop_process ctx s o).1.nextPid := by
  obtain ⟨proc, prom, pend, np⟩ := s
  cases proc with
  | none => exact ⟨rfl, fun hh => by simp at hh, rfl, rfl⟩
  | some p => exact ⟨rfl, fun _ => rfl, rfl, rfl⟩

/-- C4 witness: the amended statement at the concrete busy state, with
the inner implication discharged. -/
theorem c4_witness :
    supBusy.process.isSome = true
    ∧ (MediaContext.stop_process ctx0 supBusy Outcome.errored).1.promise
        = none
    ∧ ((MediaContext.stop_process ctx0 supBusy Outcome.errored).1.process
        = none
      ∧ (supBusy.process.isSome = true →
          (MediaContext.stop_process ctx0 supBusy
            Outcome.errored).1.promise = none)
      ∧ (MediaContext.execute
          (MediaContext.stop_process ctx0 supBusy Outcome.errored).1
          ["-re"] Fallback.soundDefault).1.process
          = some (MediaContext.stop_process ctx0 supBusy
              Outcome.errored).1.nextPid
      ∧ (MediaContext.execute
          (MediaContext.stop_process ctx0 supBusy Outcome.errored).1
          ["-re"] Fallback.soundDefault).2.2
          = some (MediaContext.stop_process ctx0 supBusy
              Outcome.errored).1.nextPid) :=
  ⟨rfl,
   (c4_theorem ctx0 supBusy Outcome.errored ["-re"]
     Fallback.soundDefault).2.1 rfl,
   c4_theorem ctx0 supBusy Outcome.errored ["-re"] Fallback.soundDefault⟩

/-- The trace of execute contains no play-entry marker. -/
lemma countP_playCall_execute (s : SupState) (args : List String)
    (fb : Fallback) :
    (MediaContext.execute s args fb).2.1.countP Act.isPlayCall = 0 := by
  obtain ⟨proc, prom, pend, np⟩ := s
  cases proc <;> rfl

/-- The trace of execute contains no video-play entry marker. -/
lemma countP_videoOf_execute (s : SupState) (args : List String)
    (fb : Fallback) (p : String) (l : Bool) :
    (MediaContext.execute s args fb).2.1.countP (Act.isVideoPlayOf p l)
      = 0 := by
  obtain ⟨proc, prom, pend, np⟩ := s
  cases proc <;> rfl

/-- VideoContext.play marks exactly one video-play entry with its own
arguments, and exactly one play entry overall, whether or not the file
exists. -/
lemma countP_videoPlay_one (ctx : Ctx) (s : SupState) (p : String)
    (l : Bool) :
    (VideoContext.play ctx s p l).2.countP (Act.isVideoPlayOf p l) = 1
    ∧ (VideoContext.play ctx s p l).2.countP Act.isPlayCall = 1 := by
  unfold VideoContext.play
  constructor
  · split
    · rw [List.countP_cons, countP_videoOf_execute]
      simp [Act.isVideoPlayOf]
    · rw [List.countP_cons, List.countP_cons, List.countP_nil]
      simp [Act.isVideoPlayOf]
  · split
    · rw [List.countP_cons, countP_playCall_execute]
      rfl
    · rfl

/-- The exit handler on a non-success code: detach both listeners and
resolve, with no slot clear and no callback. -/
lemma deliverEvent_exit_ne (ctx : Ctx) (proc prom : Option Nat) (np : Nat)
    (fb : Fallback) (code : Option Int) (hc : ¬ code = some 0) :
    deliverEvent ctx (Outcome.exited code) ⟨proc, prom, some fb, np⟩
      = (⟨proc, prom, none, np⟩,
         [Act.logLine ("process exited with code " ++ codeStr code),
          Act.detachListener StreamId.stdout,
          Act.detachListener StreamId.stderr,
          Act.resolveSig code]) := by
  unfold deliverEvent
  dsimp only
  rw [if_neg hc]
  rfl

/-- C5: a success exit triggers exactly one fallback play call: with the
sound callback pending, one play of the silence asset with loop off and
no other play; with the video callback pending, one play of the branding
asset with loop on and no other play. -/
theorem c5_theorem (ctx : Ctx) (s t : SupState)
    (hs : s.pending = some Fallback.soundDefault)
    (ht : t.pending = some Fallback.videoDefault) :
    (deliverEvent ctx (Outcome.exited (some 0)) s).2.countP
        (Act.isSoundPlayOf ("../silence.opus") false) = 1
    ∧ (deliverEvent ctx (Outcome.exited (some 0)) s).2.countP
        Act.isPlayCall = 1
    ∧ (deliverEvent ctx (Outcome.exited (some 0)) t).2.countP
        (Act.isVideoPlayOf ("../branding.mjpeg") true) = 1
    ∧ (deliverEvent ctx (Outcome.exited (some 0)) t).2.countP
        Act.isPlayCall = 1 := by
  obtain ⟨proc, prom, pend, np⟩ := s
  obtain ⟨proct, promt, pendt, npt⟩ := t
  dsimp only at hs ht
  subst hs
  subst ht
  have e2 : (deliverEvent ctx (Outcome.exited (some 0))
      ⟨proct, promt, some Fallback.videoDefault, npt⟩).2
      = ([Act.logLine ("process exited with code " ++ codeStr (some 0)),
          Act.detachListener StreamId.stdout,
          Act.detachListener StreamId.stderr,
          Act.clearSlot, Act.invokeCallback Fallback.videoDefault]
         ++ (VideoContext.play ctx ⟨none, promt, none, npt⟩
              ("../branding.mjpeg") true).2)
        ++ [Act.resolveSig (some 0)] := rfl
  refine ⟨?_, ?_, ?_, ?_⟩
  · rfl
  · rfl
  · rw [e2, List.countP_append, List.countP_append,
      (countP_videoPlay_one ctx ⟨none, promt, none, npt⟩
        ("../branding.mjpeg") true).1]
    rfl
  · rw [e2, List.countP_append, List.countP_append,
      (countP_videoPlay_one ctx ⟨none, promt, none, npt⟩
        ("../branding.mjpeg") true).2]
    rfl

/-- C5 witness: the fallback-play statement at two concrete busy states,
one with the sound callback pending and one with the video callback
pending. -/
theorem c5_witness :
    ({ supBusy with pending := some Fallback.soundDefault }
      : SupState).pending = some Fallback.soundDefault
    ∧ ({ supBusy with pending := some Fallback.videoDefault }
      : SupState).pending = some Fallback.videoDefault
    ∧ ((deliverEvent ctx0 (Outcome.exited (some 0))
        { supBusy with pending := some Fallback.soundDefault }).2.countP
          (Act.isSoundPlayOf ("../silence.opus") false) = 1
      ∧ (deliverEvent ctx0 (Outcome.exited (some 0))
        { supBusy with pending := some Fallback.soundDefault }).2.countP
          Act.isPlayCall = 1
      ∧ (deliverEvent ctx0 (Outcome.exited (some 0))
        { supBusy with pending := some Fallback.videoDefault }).2.countP
          (Act.isVideoPlayOf ("../branding.mjpeg") true) = 1
      ∧ (deliverEvent ctx0 (Outcome.exited (some 0))
        { supBusy with pending := some Fallback.videoDefault }).2.countP
          Act.isPlayCall = 1) :=
  ⟨rfl, rfl,
   c5_theorem ctx0 { supBusy with pending := some Fallback.soundDefault }
     { supBusy with pending := some Fallback.videoDefault } rfl rfl⟩

/-- C6: a video play of a path that does not exist logs and returns: the
state is unchanged and the trace is only the entry marker and the log
line, so nothing is spawned, no fallback is invoked, and no error is
surfaced. -/
theorem c6_theorem (ctx : Ctx) (s : SupState) (p : String) (l : Bool)
    (h : ctx.fsExistsSync p = false) :
    VideoContext.play ctx s p l
      = (s, [Act.videoPlayCall p l,
             Act.logLine ("Video file not found: " ++ p)]) := by
  unfold VideoContext.play
  rw [h]
  rfl

/-- C6 witness: the missing-file statement at the empty filesystem. -/
theorem c6_witness :
    ctx0.fsExistsSync ("missing.mjpeg") = false
    ∧ VideoContext.play ctx0 supBusy ("missing.mjpeg") true
      = (supBusy, [Act.videoPlayCall ("missing.mjpeg") true,
          Act.logLine ("Video file not found: " ++ "missing.mjpeg")]) :=
  ⟨rfl, c6_theorem ctx0 supBusy ("missing.mjpeg") true rfl⟩

/-- C7: a non-success exit code resolves the signal with that code,
invokes no callback, and leaves the active-process slot exactly as it
was: only the pending handler is consumed. -/
theorem c7_theorem (ctx : Ctx) (s : SupState) (fb : Fallback)
    (code : Option Int) (hp : s.pending = some fb)
    (hc : ¬ code = some 0) :
    deliverEvent ctx (Outcome.exited code) s
      = ({ s with pending := none },
         [Act.logLine ("process exited with code " ++ codeStr code),
          Act.detachListener StreamId.stdout,
          Act.detachListener StreamId.stderr,
          Act.resolveSig code])
    ∧ (deliverEvent ctx (Outcome.exited code) s).1.process = s.process
    ∧ (deliverEvent ctx (Outcome.exited code) s).2.countP Act.isInvoke
        = 0
    ∧ Act.resolveSig code ∈ (deliverEvent ctx (Outcome.exited code) s).2
    := by
  obtain ⟨proc, prom, pend, np⟩ := s
  dsimp only at hp
  subst hp
  rw [deliverEvent_exit_ne ctx proc prom np fb code hc]
  refine ⟨rfl, rfl, rfl, ?_⟩
  simp

/-- C7 witness: the non-success statement at the concrete busy state
with exit code 1. -/
theorem c7_witness :
    supBusy.pending = some Fallback.stdinLogger
    ∧ ¬ (some 1 : Option Int) = some 0
    ∧ (deliverEvent ctx0 (Outcome.exited (some 1)) supBusy
        = ({ supBusy with pending := none },
           [Act.logLine ("process exited with code " ++ codeStr (some 1)),
            Act.detachListener StreamId.stdout,
            Act.detachListener StreamId.stderr,
            Act.resolveSig (some 1)])
      ∧ (deliverEvent ctx0 (Outcome.exited (some 1)) supBusy).1.process
          = supBusy.process
      ∧ (deliverEvent ctx0 (Outcome.exited (some 1)) supBusy).2.countP
          Act.isInvoke = 0
      ∧ Act.resolveSig (some 1)
          ∈ (deliverEvent ctx0 (Outcome.exited (some 1)) supBusy).2) :=
  ⟨rfl, by decide,
   c7_theorem ctx0 supBusy Fallback.stdinLogger (some 1) rfl (by decide)⟩

/-- C8: for both terminal paths of one process lifetime, the exit path
with any code and the error path, the stdout listener and the stderr
listener are each detached exactly once. -/
theorem c8_theorem (ctx : Ctx) (s : SupState) (fb : Fallback)
    (o : Outcome) (hp : s.pending = some fb) :
    (deliverEvent ctx o s).2.countP Act.isDetachOut = 1
    ∧ (deliverEvent ctx o s).2.countP Act.isDetachErr = 1 := by
  obtain ⟨proc, prom, pend, np⟩ := s
  dsimp only at hp
  subst hp
  cases o with
  | errored => exact ⟨rfl, rfl⟩
  | exited code =>
    by_cases hc : code = some 0
    · subst hc
      have e : (deliverEvent ctx (Outcome.exited (some 0))
          ⟨proc, prom, some fb, np⟩).2
          = ([Act.logLine ("process exited with code " ++ codeStr (some 0)),
              Act.detachListener StreamId.stdout,
              Act.detachListener StreamId.stderr,
              Act.clearSlot, Act.invokeCallback fb]
             ++ (runFallback ctx fb ⟨none, prom, none, np⟩).2)
            ++ [Act.resolveSig (some 0)] := rfl
      constructor
      · rw [e, List.countP_append, List.countP_append,
          countP_detachOut_runFallback]
        rfl
      · rw [e, List.countP_append, List.countP_append,
          countP_detachErr_runFallback]
        rfl
    · rw [deliverEvent_exit_ne ctx proc prom np fb code hc]
      exact ⟨rfl, rfl⟩

/-- C8 witness: exactly-once detachment at the concrete busy state on
the error path. -/
theorem c8_witness :
    supBusy.pending = some Fallback.stdinLogger
    ∧ ((deliverEvent ctx0 Outcome.errored supBusy).2.countP
        Act.isDetachOut = 1
      ∧ (deliverEvent ctx0 Outcome.errored supBusy).2.countP
        Act.isDetachErr = 1) :=
  ⟨rfl, c8_theorem ctx0 supBusy Fallback.stdinLogger Outcome.errored rfl⟩

/-- C9 counterexample: calling play_stdin while a process is already
active does not return an undefined handle without throwing: the member
access on the null return of execute throws a TypeError, modelled as an
error result, while the state is untouched. -/
theorem c9_counterexample :
    (SoundContext.play_stdin ctx0 supBusy).2.2
      = Except.error
          ("TypeError: Cannot read properties of null (reading stdin)")
    ∧ (SoundContext.play_stdin ctx0 supBusy).1 = supBusy :=
  ⟨rfl, rfl⟩

/-- C9 amended: on an idle supervisor play_stdin spawns and returns the
new process's writable stdin handle; on a busy supervisor the underlying
execute returns null and the `.stdin` access throws a TypeError instead
of returning an undefined handle. -/
theorem c9_theorem (ctx : Ctx) (s t : SupState) (pid : Nat)
    (hb : s.process = some pid) (hi : t.process = none) :
    (SoundContext.play_stdin ctx s).2.2
      = Except.error
          ("TypeError: Cannot read properties of null (reading stdin)")
    ∧ (SoundContext.play_stdin ctx s).1 = s
    ∧ (SoundContext.play_stdin ctx t).2.2 = Except.ok t.nextPid
    ∧ (SoundContext.play_stdin ctx t).1.process = some t.nextPid
    ∧ (SoundContext.play_stdin ctx t).1.promise = some t.nextPid := by
  obtain ⟨proc, prom, pend, np⟩ := s
  obtain ⟨proct, promt, pendt, npt⟩ := t
  dsimp only at hb hi
  subst hb
  subst hi
  exact ⟨rfl, rfl, rfl, rfl, rfl⟩

/-- C9 witness: the amended statement at the concrete busy and idle
states. -/
theorem c9_witness :
    supBusy.process = some 0 ∧ SupState.init.process = none
    ∧ ((SoundContext.play_stdin ctx0 supBusy).2.2
        = Except.error
            ("TypeError: Cannot read properties of null (reading stdin)")
      ∧ (SoundContext.play_stdin ctx0 supBusy).1 = supBusy
      ∧ (SoundContext.play_stdin ctx0 SupState.init).2.2
          = Except.ok SupState.init.nextPid
      ∧ (SoundContext.play_stdin ctx0 SupState.init).1.process
          = some SupState.init.nextPid
      ∧ (SoundContext.play_stdin ctx0 SupState.init).1.promise
          = some SupState.init.nextPid) :=
  ⟨rfl, rfl, c9_theorem ctx0 supBusy SupState.init 0 rfl rfl⟩

/-- C10: with the serverless flag set, uploadFile and uploadDirectory
spawn nothing and resolve to the empty string, for every input and every
possible behavior of the aws process. -/
theorem c10_theorem (cfg : S3Config) (fe : Bool)
    (filePath bucketName s3Path localDir : String)
    (s3Args : Option (List String)) (o o2 : AwsOutcome)
    (h : cfg.serverless = true) :
    S3Uploader.uploadFile cfg fe filePath bucketName s3Path s3Args o
      = (Except.ok (""), [])
    ∧ S3Uploader.uploadDirectory cfg localDir bucketName s3Path s3Args o2
      = (Except.ok (""), []) := by
  constructor
  · unfold S3Uploader.uploadFile
    rw [h]
    rfl
  · unfold S3Uploader.uploadDirectory
    rw [h]
    rfl

/-- C10 witness: the serverless no-op statement at a concrete serverless
configuration. -/
theorem c10_witness :
    cfgServerless.serverless = true
    ∧ (S3Uploader.uploadFile cfgServerless true ("a.mp4") ("bucket")
        ("path/a.mp4") none (AwsOutcome.closed 0 ("") (""))
        = (Except.ok (""), [])
      ∧ S3Uploader.uploadDirectory cfgServerless ("dir") ("bucket")
        ("path") none (AwsOutcome.closed 0 ("") (""))
        = (Except.ok (""), [])) :=
  ⟨rfl,
   c10_theorem cfgServerless true ("a.mp4") ("bucket") ("path/a.mp4")
     ("dir") none (AwsOutcome.closed 0 ("") (""))
     (AwsOutcome.closed 0 ("") ("")) rfl⟩
